import Mathlib

/-
Verification development for the crash-detection core of the repository
(`backend/crash_detection.py`).  The Python module is shallowly embedded:
per-frame pure helpers become Lean functions, the module-level mutable
tracking state becomes explicit state records threaded through step
functions, and float arithmetic is modelled with exact rationals.
Euclidean distances (which the source computes with `math.sqrt`) are
compared through their squares, which is an exact rendering of every
comparison `distance < c` appearing in the source; the square-root
primitive itself is kept abstract (a `ℚ → ℚ` parameter) where a raw
velocity value has to be stored.
-/

namespace CrashDetection

/-- Append an element to a bounded deque (Python `collections.deque` with
`maxlen = cap`): the element is appended and the oldest entries are dropped
from the front once the capacity is exceeded. -/
def pushCap {α : Type} (cap : Nat) (l : List α) (x : α) : List α :=
  let l2 := l ++ [x]
  if cap < l2.length then l2.drop (l2.length - cap) else l2

/-- Python slice `l[-n:]`: the last `n` elements of a list. -/
def lastN {α : Type} (l : List α) (n : Nat) : List α :=
  l.drop (l.length - n)

/-- Python `l[-1] if l else d`. -/
def lastD (l : List ℚ) (d : ℚ) : ℚ := l.getLastD d

/-- Python `max(l)` for a nonempty list (0 on the empty list, which the
source never hits because of its length guards). -/
def listMax : List ℚ → ℚ
  | [] => 0
  | x :: xs => xs.foldl max x

/-- Squared Euclidean distance between two integer pixel centers.  The
source's `calculate_distance` returns the square root; every use in the
embedded code compares it with a nonnegative constant, which is rendered
exactly as a comparison of this square with the constant's square. -/
def sqDist (p q : Int × Int) : Int :=
  (p.1 - q.1) ^ 2 + (p.2 - q.2) ^ 2

/-- Bounding box in the source's `(x, y, w, h)` convention. -/
structure Bbox where
  x : Int
  y : Int
  w : Int
  h : Int
deriving DecidableEq, Repr

/-- One detection produced by the external detector
(`detect_vehicles` output element). -/
structure Detection where
  id : Nat
  center : Int × Int
  bbox : Bbox
  confidence : ℚ
  cls : Nat
deriving DecidableEq, Repr

/-- Source `calculate_bbox_area`: width times height. -/
def calculate_bbox_area (b : Bbox) : ℚ :=
  ((b.w * b.h : Int) : ℚ)

/-- Source `calculate_bbox_growth_rate`: ratio of areas, with the
`previous_area == 0` case defined as 1.0 instead of dividing. -/
def calculate_bbox_growth_rate (current_area previous_area : ℚ) : ℚ :=
  if previous_area = 0 then 1 else current_area / previous_area

/-- Source `is_bbox_at_bottom`: the box's bottom edge sits below 85% of the
frame height. -/
def is_bbox_at_bottom (b : Bbox) (frame_height : ℚ) : Bool :=
  decide (((b.y + b.h : Int) : ℚ) / frame_height > 85 / 100)

/-- The `artifacts` dictionary returned by `analyze_visual_artifacts`. -/
structure VisualArtifacts where
  camera_shake : ℚ
  blur_spike : ℚ
  brightness_change : ℚ
  impact_detected : Bool
deriving DecidableEq, Repr

/-- Tags for the evidence strings the scorer appends; each constructor
corresponds to one f-string in the source and carries the numeric value
interpolated there (for the two proximity rules the squared distance is
carried, see `sqDist`). -/
inductive Evid where
  | majorShake (v : ℚ)
  | strongShake (v : ℚ)
  | moderateShake (v : ℚ)
  | extremeGrowth (v : ℚ)
  | highGrowth (v : ℚ)
  | moderateGrowth (v : ℚ)
  | largeArea (v : ℚ)
  | mediumArea (v : ℚ)
  | bottomPosition
  | highVelocity (v : ℚ)
  | mediumVelocity (v : ℚ)
  | extremeDecel (v : ℚ)
  | highDecel (v : ℚ)
  | closeApproach (sq : Int) (vel : ℚ)
  | closeProximityDecel (sq : Int)
deriving DecidableEq, Repr

/-- One element of the list `detect_comprehensive_crashes` returns.
`vehicle_id = none` renders the source's `'unknown'` vehicle-less events. -/
structure CrashEvidence where
  vehicle_id : Option Nat
  position : Int × Int
  severity : ℚ
  evidence : List Evid
deriving DecidableEq, Repr

/-- Per-object tracking state: the module-level defaultdict/dict/set
globals of the source, rendered as total maps (absent keys read as the
defaultdict's empty default). -/
structure TrackState where
  track_history : Nat → List (Int × Int)
  previous_positions : Nat → Option (Int × Int)
  velocities : Nat → List ℚ
  accelerations : Nat → List ℚ
  bbox_history : Nat → List ℚ
  bbox_growth_rates : Nat → List ℚ
  active_vehicles : Nat → Bool
  last_seen_frame : Nat → Option Nat
  vehicle_last_positions : Nat → Option (Int × Int)

/-- Point update of a map-valued field. -/
def setAt {β : Type} (f : Nat → β) (i : Nat) (v : β) : Nat → β :=
  fun j => if j = i then v else f j

/-- Add points to one key of a score map (`crash_scores[id] += p`). -/
def applyAt (f : Nat → ℚ) (i : Nat) (p : ℚ) : Nat → ℚ :=
  fun j => if j = i then f j + p else f j

/-- Append evidence tags to one key (`crash_evidence[id].append(...)`). -/
def appendAt (f : Nat → List Evid) (i : Nat) (es : List Evid) : Nat → List Evid :=
  fun j => if j = i then f j ++ es else f j

/-- Insertion-ordered key set of a Python dict built by repeated
assignment: a key is added at the end on its first occurrence. -/
def insertKey (l : List Nat) (k : Nat) : List Nat :=
  if k ∈ l then l else l ++ [k]

/-- The keys of `crash_scores` in iteration order: the detection ids with
duplicates collapsed to their first occurrence. -/
def pyKeys (dets : List Detection) : List Nat :=
  dets.foldl (fun acc d => insertKey acc d.id) []

/-- Points the visual-artifact phase adds uniformly to every tracked
vehicle's score (source lines: the `if crash_scores:` arms of the shake
tiers).  Applied only when `impact_detected` holds. -/
def visualPoints (hasVehicles : Bool) (va : VisualArtifacts) : ℚ :=
  if va.impact_detected && hasVehicles then
    if 200 < va.camera_shake then 150
    else if 100 < va.camera_shake then 100
    else if 50 < va.camera_shake then 60
    else 0
  else 0

/-- Evidence tag matching `visualPoints` for every tracked vehicle. -/
def visualEvid (hasVehicles : Bool) (va : VisualArtifacts) : List Evid :=
  if va.impact_detected && hasVehicles then
    if 200 < va.camera_shake then [Evid.majorShake va.camera_shake]
    else if 100 < va.camera_shake then [Evid.strongShake va.camera_shake]
    else if 50 < va.camera_shake then [Evid.moderateShake va.camera_shake]
    else []
  else []

/-- Vehicle-less global-impact events (source: the `else` arms of the two
strongest shake tiers, emitted immediately into `confirmed_crashes` when no
vehicle is tracked). -/
def visualGlobalCrashes (hasVehicles : Bool) (va : VisualArtifacts) : List CrashEvidence :=
  if va.impact_detected && !hasVehicles then
    if 200 < va.camera_shake then
      [⟨none, (640, 360), va.camera_shake, [Evid.majorShake va.camera_shake]⟩]
    else if 100 < va.camera_shake then
      [⟨none, (640, 360), va.camera_shake, [Evid.strongShake va.camera_shake]⟩]
    else []
  else []

/-- Bounding-box growth scoring block (guarded by having at least three
recorded growth rates): growth tiers, absolute-area bonus and
bottom-of-frame bonus. -/
def growthBlock (growth_rates : List ℚ) (area_hist : List ℚ) (b : Bbox)
    (frame_height : ℚ) : ℚ × List Evid :=
  if 3 ≤ growth_rates.length then
    let recent := lastN growth_rates 3
    let maxg := listMax recent
    let current_area := lastD area_hist 0
    let g : ℚ × List Evid :=
      if 5 < maxg then (60, [Evid.extremeGrowth maxg])
      else if 3 < maxg then (40, [Evid.highGrowth maxg])
      else if 2 < maxg then (25, [Evid.moderateGrowth maxg])
      else (0, [])
    let a : ℚ × List Evid :=
      if 50000 < current_area then (25, [Evid.largeArea current_area])
      else if 30000 < current_area then (15, [Evid.mediumArea current_area])
      else (0, [])
    let p : ℚ × List Evid :=
      if is_bbox_at_bottom b frame_height then (15, [Evid.bottomPosition])
      else (0, [])
    (g.1 + a.1 + p.1, g.2 ++ a.2 ++ p.2)
  else (0, [])

/-- Velocity scoring tiers. -/
def velocityBlock (current_vel : ℚ) : ℚ × List Evid :=
  if 50 < current_vel then (25, [Evid.highVelocity current_vel])
  else if 30 < current_vel then (15, [Evid.mediumVelocity current_vel])
  else (0, [])

/-- Deceleration scoring tiers, guarded by having at least two recorded
acceleration samples; the latest sample is the one examined. -/
def decelBlock (accels : List ℚ) : ℚ × List Evid :=
  if 2 ≤ accels.length then
    let latest := lastD accels 0
    if latest < -100 then (40, [Evid.extremeDecel latest])
    else if latest < -50 then (25, [Evid.highDecel latest])
    else (0, [])
  else (0, [])

/-- Single-vehicle scoring rules applied for one detection in the outer
loop of `detect_comprehensive_crashes`. -/
def singleScoring (ts : TrackState) (frame_height : ℚ) (d : Detection)
    (s : Nat → ℚ) (e : Nat → List Evid) : (Nat → ℚ) × (Nat → List Evid) :=
  let current_vel := lastD (ts.velocities d.id) 0
  let g := growthBlock (ts.bbox_growth_rates d.id) (ts.bbox_history d.id) d.bbox frame_height
  let v := velocityBlock current_vel
  let a := decelBlock (ts.accelerations d.id)
  (applyAt s d.id (g.1 + v.1 + a.1), appendAt e d.id (g.2 ++ v.2 ++ a.2))

/-- Pairwise rules for one ordered pair `(d1, d2)` of detections:
high-speed close approach (distance < 50, either velocity > 60) and close
proximity with deceleration (distance < 30, either latest acceleration
< −30).  `vel1` is the outer detection's current velocity. -/
def pairStep (ts : TrackState) (d1 : Detection) (vel1 : ℚ) (d2 : Detection)
    (s : Nat → ℚ) (e : Nat → List Evid) : (Nat → ℚ) × (Nat → List Evid) :=
  let vel2 := lastD (ts.velocities d2.id) 0
  let sq := sqDist d1.center d2.center
  let first : (Nat → ℚ) × (Nat → List Evid) :=
    if sq < 50 ^ 2 && (decide (60 < vel1) || decide (60 < vel2)) then
      (applyAt (applyAt s d1.id 40) d2.id 40,
       appendAt (appendAt e d1.id [Evid.closeApproach sq vel1]) d2.id
         [Evid.closeApproach sq vel2])
    else (s, e)
  if sq < 30 ^ 2 then
    let recent_accel1 := lastD (ts.accelerations d1.id) 0
    let recent_accel2 := lastD (ts.accelerations d2.id) 0
    if decide (recent_accel1 < -30) || decide (recent_accel2 < -30) then
      (applyAt (applyAt first.1 d1.id 35) d2.id 35,
       appendAt (appendAt first.2 d1.id [Evid.closeProximityDecel sq]) d2.id
         [Evid.closeProximityDecel sq])
    else first
  else first

/-- Inner loop over `detections[i+1:]`. -/
def pairLoop (ts : TrackState) (d1 : Detection) (vel1 : ℚ) :
    List Detection → (Nat → ℚ) → (Nat → List Evid) → (Nat → ℚ) × (Nat → List Evid)
  | [], s, e => (s, e)
  | d2 :: rest, s, e =>
      let r := pairStep ts d1 vel1 d2 s e
      pairLoop ts d1 vel1 rest r.1 r.2

/-- Outer loop of `detect_comprehensive_crashes`: for each detection the
single-vehicle rules run, then the pairwise rules against all later
detections, threading the score and evidence maps exactly as the Python
loop mutates its dictionaries. -/
def perDetectionLoop (ts : TrackState) (frame_height : ℚ) :
    List Detection → (Nat → ℚ) → (Nat → List Evid) → (Nat → ℚ) × (Nat → List Evid)
  | [], s, e => (s, e)
  | d :: rest, s, e =>
      let r1 := singleScoring ts frame_height d s e
      let r2 := pairLoop ts d (lastD (ts.velocities d.id) 0) rest r1.1 r1.2
      perDetectionLoop ts frame_height rest r2.1 r2.2

/-- The final score and evidence maps of one call to
`detect_comprehensive_crashes`. -/
def crashMaps (ts : TrackState) (dets : List Detection) (frame_height : ℚ)
    (va : VisualArtifacts) : (Nat → ℚ) × (Nat → List Evid) :=
  perDetectionLoop ts frame_height dets
    (fun _ => visualPoints (!dets.isEmpty) va)
    (fun _ => visualEvid (!dets.isEmpty) va)

/-- Total additive crash score of a vehicle id for the frame. -/
def crashScoresOf (ts : TrackState) (dets : List Detection) (frame_height : ℚ)
    (va : VisualArtifacts) : Nat → ℚ :=
  (crashMaps ts dets frame_height va).1

/-- Source `detect_comprehensive_crashes`: the vehicle-less global events
collected during the visual phase, followed by one `CrashEvidence` for
every tracked id whose total score reaches the threshold 120. -/
def detect_comprehensive_crashes (ts : TrackState) (dets : List Detection)
    (frame_height : ℚ) (va : VisualArtifacts) : List CrashEvidence :=
  let m := crashMaps ts dets frame_height va
  visualGlobalCrashes (!dets.isEmpty) va ++
    (pyKeys dets).filterMap (fun i =>
      if 120 ≤ m.1 i then
        some ⟨some i, (ts.vehicle_last_positions i).getD (0, 0), m.1 i, m.2 i⟩
      else none)

/-- Diagnostic disappearance score (source `detect_vehicle_disappearances`,
the weighted sum computed for debug logging: distance, last velocity and
velocity-change tiers). -/
def disappearance_score (closest_distance_sq : Int) (last_velocity velocity_change : ℚ) : ℚ :=
  (if closest_distance_sq < 20 ^ 2 then 100
   else if closest_distance_sq < 40 ^ 2 then 60 else 0) +
  (if 80 < last_velocity then 80
   else if 60 < last_velocity then 60
   else if 40 < last_velocity then 40 else 0) +
  (if velocity_change < -50 then 80
   else if velocity_change < -40 then 60 else 0)

/-- Source `detect_vehicle_disappearances`: the loop computes
`disappearance_score` and related diagnostics for recently vanished
vehicles, but only prints them under `DEBUG_MODE`; nothing is ever appended
to `crashes_from_disappearance`, so the function returns the empty list on
every input. -/
def detect_vehicle_disappearances (_ts : TrackState) (_dets : List Detection)
    (_frame_count : Nat) : List CrashEvidence :=
  []

/-- The raw per-frame signals the three OpenCV helpers would compute:
`detect_camera_shake(frame, previous)`, `detect_blur_spike(frame)` and
`detect_brightness_change(frame)`.  They depend only on the raw images, so
they enter the embedding as inputs. -/
structure FrameSignals where
  shake : ℚ
  blur : ℚ
  brightness : ℚ
deriving DecidableEq, Repr

/-- State owned by `analyze_visual_artifacts`: the previous-frame buffer
(only its presence matters) and the three bounded signal histories. -/
structure ArtifactState where
  has_previous : Bool
  blur_history : List ℚ
  motion_history : List ℚ
  brightness_history : List ℚ
deriving DecidableEq, Repr

/-- Spike test shared by the shake and blur signals: with at least three
accumulated samples, the newest of the last three must exceed the mean of
the prior two by more than the threshold. -/
def spikeExceeds (hist : List ℚ) (threshold : ℚ) : Bool :=
  decide (3 ≤ hist.length) &&
    (let recent := lastN hist 3
     decide ((recent.getD 0 0 + recent.getD 1 0) / 2 + threshold < recent.getLastD 0))

/-- Brightness test: absolute deviation of the newest of the last three
samples from the mean of the prior two exceeds the threshold. -/
def absExceeds (hist : List ℚ) (threshold : ℚ) : Bool :=
  decide (3 ≤ hist.length) &&
    (let recent := lastN hist 3
     decide (threshold < |recent.getLastD 0 - (recent.getD 0 0 + recent.getD 1 0) / 2|))

/-- Camera-shake impact flag: only evaluated when a previous frame exists
(so the shake sample was appended), with threshold `CAMERA_SHAKE_THRESHOLD = 15`. -/
def shakeFlagOf (s : ArtifactState) (sig : FrameSignals) : Bool :=
  if s.has_previous then spikeExceeds (pushCap 5 s.motion_history sig.shake) 15
  else false

/-- Blur impact flag, threshold `BLUR_SPIKE_THRESHOLD = 50`. -/
def blurFlagOf (s : ArtifactState) (sig : FrameSignals) : Bool :=
  spikeExceeds (pushCap 10 s.blur_history sig.blur) 50

/-- Brightness impact flag, threshold `BRIGHTNESS_CHANGE_THRESHOLD = 30`. -/
def brightFlagOf (s : ArtifactState) (sig : FrameSignals) : Bool :=
  absExceeds (pushCap 5 s.brightness_history sig.brightness) 30

/-- Source `analyze_visual_artifacts`: appends the shake sample only when a
previous frame exists (and then reports it in the artifacts dict, otherwise
the field stays 0.0), always appends blur and brightness, sets
`impact_detected` when any of the three flags fires, and unconditionally
records the current frame as the new previous frame. -/
def analyze_visual_artifacts (s : ArtifactState) (sig : FrameSignals) :
    ArtifactState × VisualArtifacts :=
  let motionH := if s.has_previous then pushCap 5 s.motion_history sig.shake
                 else s.motion_history
  let shakeVal : ℚ := if s.has_previous then sig.shake else 0
  let blurH := pushCap 10 s.blur_history sig.blur
  let brightH := pushCap 5 s.brightness_history sig.brightness
  (⟨true, blurH, motionH, brightH⟩,
   ⟨shakeVal, sig.blur, sig.brightness,
    shakeFlagOf s sig || blurFlagOf s sig || brightFlagOf s sig⟩)

/-- Run the artifact detector over a stream of frames from a given state,
returning the per-frame artifact samples in order. -/
def runAnalyze : ArtifactState → List FrameSignals → List VisualArtifacts
  | _, [] => []
  | s, sig :: rest =>
      let r := analyze_visual_artifacts s sig
      r.2 :: runAnalyze r.1 rest

/-- Initial artifact state (module load: `previous_frame = None`, empty
histories). -/
def initArtifact : ArtifactState := ⟨false, [], [], []⟩

/-- Crash-deduplication state of `process_video`: the globals
`crash_detected_frame`, `total_unique_crashes` and `crash_frames`. -/
structure DedupState where
  crash_detected_frame : Option Nat
  total_unique_crashes : Nat
  crash_frames : List Nat
deriving DecidableEq, Repr

/-- Initial dedup state (module load / after `clear_tracking_data`). -/
def initDedup : DedupState := ⟨none, 0, []⟩

/-- One frame of the deduplication logic in `process_video`
(`if all_crashes:` block): first evidence ever opens incident 1; evidence
more than 10 frames after the open incident's first frame opens a new
incident (counter incremented, first frame reset, frame appended to
`crash_frames`); otherwise the incident continues and the frame is appended
only while `crash_frames` holds fewer than 4 entries. -/
def dedupStep (s : DedupState) (hasEvidence : Bool) (frame : Nat) : DedupState :=
  if hasEvidence then
    match s.crash_detected_frame with
    | none => ⟨some frame, 1, s.crash_frames ++ [frame]⟩
    | some cdf =>
        if 10 < frame - cdf then
          ⟨some frame, s.total_unique_crashes + 1, s.crash_frames ++ [frame]⟩
        else
          ⟨some cdf, s.total_unique_crashes,
           if s.crash_frames.length < 4 then s.crash_frames ++ [frame]
           else s.crash_frames⟩
  else s

/-- Run the deduplicator over consecutive frames starting at `frame`. -/
def dedupRunAux (s : DedupState) (frame : Nat) : List Bool → DedupState
  | [] => s
  | b :: rest => dedupRunAux (dedupStep s b frame) (frame + 1) rest

/-- Run the deduplicator over a whole session: element `k` of the list says
whether frame `k+1` produced crash evidence (frames are 1-based in
`process_video`). -/
def runDedup (evs : List Bool) : DedupState :=
  dedupRunAux initDedup 1 evs

/-- The complete session tracking state cleared by `clear_tracking_data`
(drawing-only caches aside). -/
structure SessionState where
  track : TrackState
  artifacts : ArtifactState
  dedup : DedupState

/-- Initial tracking maps (module load: empty defaultdicts, dicts and set). -/
def initTrack : TrackState :=
  { track_history := fun _ => []
    previous_positions := fun _ => none
    velocities := fun _ => []
    accelerations := fun _ => []
    bbox_history := fun _ => []
    bbox_growth_rates := fun _ => []
    active_vehicles := fun _ => false
    last_seen_frame := fun _ => none
    vehicle_last_positions := fun _ => none }

/-- The fresh session state. -/
def initSession : SessionState :=
  { track := initTrack, artifacts := initArtifact, dedup := initDedup }

/-- Source `clear_tracking_data`: every history map, deque, set, the
previous-frame buffer, `crash_detected_frame`, `total_unique_crashes` and
`crash_frames` are reset to their initial values, one assignment per field
as in the Python body. -/
def clear_tracking_data (_s : SessionState) : SessionState :=
  { track :=
      { track_history := fun _ => []
        previous_positions := fun _ => none
        velocities := fun _ => []
        accelerations := fun _ => []
        bbox_history := fun _ => []
        bbox_growth_rates := fun _ => []
        active_vehicles := fun _ => false
        last_seen_frame := fun _ => none
        vehicle_last_positions := fun _ => none }
    artifacts := ⟨false, [], [], []⟩
    dedup := ⟨none, 0, []⟩ }

/-- Source `update_tracking` body for one detection: last-seen and
last-position maps, position history (cap 30), bbox-area history (cap 10),
growth-rate history (cap 5, fed from the last two areas after the append),
velocity (cap 10, only once a previous position exists, computed through
the abstract square-root primitive `sqrtQ`) and acceleration (cap 5, the
difference of the last two velocities after the append). -/
def updateOne (sqrtQ : ℚ → ℚ) (ts : TrackState) (frame_count : Nat)
    (d : Detection) : TrackState :=
  let center := d.center
  let current_area := calculate_bbox_area d.bbox
  let bboxH := pushCap 10 (ts.bbox_history d.id) current_area
  let growth :=
    if 2 ≤ bboxH.length then
      pushCap 5 (ts.bbox_growth_rates d.id)
        (calculate_bbox_growth_rate current_area (bboxH.getD (bboxH.length - 2) 0))
    else ts.bbox_growth_rates d.id
  let va : List ℚ × List ℚ :=
    match ts.previous_positions d.id with
    | some prev =>
        let velocity := sqrtQ ((sqDist center prev : Int) : ℚ)
        let vels := pushCap 10 (ts.velocities d.id) velocity
        let accels :=
          if 2 ≤ vels.length then
            pushCap 5 (ts.accelerations d.id)
              (vels.getD (vels.length - 1) 0 - vels.getD (vels.length - 2) 0)
          else ts.accelerations d.id
        (vels, accels)
    | none => (ts.velocities d.id, ts.accelerations d.id)
  { ts with
    last_seen_frame := setAt ts.last_seen_frame d.id (some frame_count)
    vehicle_last_positions := setAt ts.vehicle_last_positions d.id (some center)
    track_history := setAt ts.track_history d.id (pushCap 30 (ts.track_history d.id) center)
    bbox_history := setAt ts.bbox_history d.id bboxH
    bbox_growth_rates := setAt ts.bbox_growth_rates d.id growth
    velocities := setAt ts.velocities d.id va.1
    accelerations := setAt ts.accelerations d.id va.2
    previous_positions := setAt ts.previous_positions d.id (some center) }

/-- Source `update_tracking`: the current ids join `active_vehicles`, then
each detection updates its per-id histories in order. -/
def update_tracking (sqrtQ : ℚ → ℚ) (ts : TrackState) (dets : List Detection)
    (frame_count : Nat) : TrackState :=
  let ts0 := { ts with
    active_vehicles := fun i => ts.active_vehicles i || dets.any (fun d => d.id = i) }
  dets.foldl (fun acc d => updateOne sqrtQ acc frame_count d) ts0

/-- One iteration of the `process_video` main loop on the session state:
visual artifacts are analyzed from the pre-update artifact state, tracking
is updated, disappearance crashes (always empty) and comprehensive crashes
are computed against the updated tracking state, their concatenation
drives the deduplicator. -/
def processFrame (sqrtQ : ℚ → ℚ) (s : SessionState) (dets : List Detection)
    (sig : FrameSignals) (frame_count : Nat) (frame_height : ℚ) : SessionState :=
  let ar := analyze_visual_artifacts s.artifacts sig
  let ts := update_tracking sqrtQ s.track dets frame_count
  let disappearance_crashes := detect_vehicle_disappearances ts dets frame_count
  let crashes := detect_comprehensive_crashes ts dets frame_height ar.2
  let all_crashes := crashes ++ disappearance_crashes
  { track := ts, artifacts := ar.1,
    dedup := dedupStep s.dedup (!all_crashes.isEmpty) frame_count }

/-- Helper: membership in the insertion-ordered key list. -/
lemma mem_insertKey (l : List Nat) (k i : Nat) : i ∈ insertKey l k ↔ i ∈ l ∨ i = k := by
  unfold insertKey
  split
  · rename_i hk
    constructor
    · exact fun hi => Or.inl hi
    · rintro (hi | rfl)
      · exact hi
      · exact hk
  · simp [List.mem_append]

/-- Helper: the keys of the score dict are exactly the detection ids. -/
lemma mem_pyKeys_aux (dets : List Detection) :
    ∀ (acc : List Nat) (i : Nat),
      i ∈ dets.foldl (fun a d => insertKey a d.id) acc ↔
        i ∈ acc ∨ i ∈ dets.map Detection.id := by
  induction dets with
  | nil => simp
  | cons d rest ih =>
      intro acc i
      rw [List.foldl_cons, ih, mem_insertKey]
      simp
      tauto

/-- Helper: membership in `pyKeys`. -/
lemma mem_pyKeys (dets : List Detection) (i : Nat) :
    i ∈ pyKeys dets ↔ i ∈ dets.map Detection.id := by
  unfold pyKeys
  rw [mem_pyKeys_aux]
  simp

/-- Helper: vehicle-less global-impact events carry no vehicle id. -/
lemma visualGlobalCrashes_vehicle_id (h : Bool) (va : VisualArtifacts) :
    ∀ e ∈ visualGlobalCrashes h va, e.vehicle_id = none := by
  intro e he
  unfold visualGlobalCrashes at he
  split at he
  · split at he
    · simp at he
      subst he
      rfl
    · split at he
      · simp at he
        subst he
        rfl
      · simp at he
  · simp at he

/-- C6.  The bounding-box growth-rate computation with `previous_area = 0`
returns exactly 1.0 for every `current_area`; the division branch is never
taken in that case. -/
theorem C6_growth_rate_zero_prev_area :
    ∀ current_area : ℚ, calculate_bbox_growth_rate current_area 0 = 1 := by
  intro c
  simp [calculate_bbox_growth_rate]

/-- C9.  The disappearance monitor returns the empty list on every input,
so concatenating its output onto the comprehensive-crash list (as
`process_video` does to form `all_crashes`) never adds anything: the
disappearance signal is diagnostics-only. -/
theorem C9_disappearances_never_emitted :
    ∀ (ts : TrackState) (dets : List Detection) (frame : Nat)
      (crashes : List CrashEvidence),
      detect_vehicle_disappearances ts dets frame = [] ∧
      crashes ++ detect_vehicle_disappearances ts dets frame = crashes := by
  intro ts dets frame crashes
  exact ⟨rfl, by simp [detect_vehicle_disappearances]⟩

/-- C1 counterexample.  Evidence occurs at frames 1, 9 and 14 of a session.
The events at frames 9 and 14 are only 5 frames apart (≤ 10), yet the
event at frame 9 merges into incident 1 while the event at frame 14 opens
incident 2, because the cooldown window is anchored at the incident's
first frame: the claim that any two evidence events at most 10 frames
apart merge into the same incident is false. -/
theorem C1_counterexample :
    (runDedup [true, false, false, false, false, false, false, false,
        true]).total_unique_crashes = 1 ∧
    (runDedup [true, false, false, false, false, false, false, false,
        true]).crash_detected_frame = some 1 ∧
    (runDedup [true, false, false, false, false, false, false, false, true,
        false, false, false, false, true]).total_unique_crashes = 2 ∧
    (runDedup [true, false, false, false, false, false, false, false, true,
        false, false, false, false, true]).crash_detected_frame = some 14 ∧
    14 - 9 ≤ 10 := by
  decide

/-- C1 (amended).  With an incident open at first frame `cf`, evidence at
frame `frame` merges into the same incident (counter and first frame
unchanged) iff `frame − cf ≤ 10`; evidence with `frame − cf > 10` opens a
new incident whose index is the old one plus 1, so successive incident
openings always get distinct indices. -/
theorem C1_window_anchored_at_first_frame (s : DedupState) (cf frame : Nat)
    (h : s.crash_detected_frame = some cf) :
    (frame - cf ≤ 10 →
      (dedupStep s true frame).total_unique_crashes = s.total_unique_crashes ∧
      (dedupStep s true frame).crash_detected_frame = some cf) ∧
    (10 < frame - cf →
      (dedupStep s true frame).total_unique_crashes = s.total_unique_crashes + 1 ∧
      (dedupStep s true frame).crash_detected_frame = some frame) := by
  constructor
  · intro hle
    simp [dedupStep, h, Nat.not_lt.mpr hle]
  · intro hlt
    simp [dedupStep, h, hlt]

/-- C1 witness: the amended theorem applied to a concrete open-incident
state at first frame 3, once with evidence 2 frames later (merge) and once
with evidence 17 frames later (new incident). -/
theorem C1_window_witness :
    ((dedupStep ⟨some 3, 2, [3]⟩ true 5).total_unique_crashes = 2 ∧
     (dedupStep ⟨some 3, 2, [3]⟩ true 5).crash_detected_frame = some 3) ∧
    ((dedupStep ⟨some 3, 2, [3]⟩ true 20).total_unique_crashes = 3 ∧
     (dedupStep ⟨some 3, 2, [3]⟩ true 20).crash_detected_frame = some 20) :=
  ⟨(C1_window_anchored_at_first_frame ⟨some 3, 2, [3]⟩ 3 5 rfl).1 (by decide),
   (C1_window_anchored_at_first_frame ⟨some 3, 2, [3]⟩ 3 20 rfl).2 (by decide)⟩

/-- C2 counterexample.  Evidence at frame 1 opens incident 1; evidence at
frame 12 (gap 11 > 10) opens incident 2, but the evidence-frame list then
reads `[1, 12]`, not `[12]`: the list is not reset when a new incident
opens. -/
theorem C2_counterexample :
    (runDedup ([true] ++ List.replicate 10 false ++ [true])).total_unique_crashes = 2 ∧
    (runDedup ([true] ++ List.replicate 10 false ++ [true])).crash_detected_frame = some 12 ∧
    (runDedup ([true] ++ List.replicate 10 false ++ [true])).crash_frames = [1, 12] ∧
    (runDedup ([true] ++ List.replicate 10 false ++ [true])).crash_frames ≠ [12] := by
  decide

/-- C2 (amended).  When an incident is open with first frame `cf` and
evidence arrives with `frame − cf > 10`, the counter increments by exactly
1 and `crash_detected_frame` is set to the current frame, but the current
frame is appended to the session-global evidence-frame list, which is not
reset and keeps the earlier incidents' frames. -/
theorem C2_new_incident_appends (s : DedupState) (cf frame : Nat)
    (h : s.crash_detected_frame = some cf) (hgap : 10 < frame - cf) :
    dedupStep s true frame =
      ⟨some frame, s.total_unique_crashes + 1, s.crash_frames ++ [frame]⟩ := by
  simp [dedupStep, h, hgap]

/-- C2 witness: concrete new-incident transition. -/
theorem C2_new_incident_witness :
    dedupStep ⟨some 3, 2, [3]⟩ true 20 = ⟨some 20, 3, [3, 20]⟩ :=
  C2_new_incident_appends ⟨some 3, 2, [3]⟩ 3 20 rfl (by decide)

/-- C3 counterexample.  Evidence at frames 1, 2, 3, 4 and 20: the fifth
entry (frame 20, a new incident) is appended unconditionally, so the
session's evidence-frame list reaches 5 entries, exceeding the claimed cap
of 4. -/
theorem C3_counterexample :
    ((runDedup ([true, true, true, true] ++ List.replicate 15 false ++
        [true])).crash_frames).length = 5 := by
  decide

/-- Invariant used for the amended C3 bound: the list is empty while no
incident has been opened, the counter is positive once one has, and the
list never holds more than the counter plus 3 entries. -/
def DedupInv (s : DedupState) : Prop :=
  (s.crash_detected_frame = none → s.crash_frames = []) ∧
  (s.crash_detected_frame ≠ none → 1 ≤ s.total_unique_crashes) ∧
  s.crash_frames.length ≤ s.total_unique_crashes + 3

/-- Helper: the invariant is preserved by one deduplication step. -/
lemma dedupStep_inv (s : DedupState) (b : Bool) (f : Nat) (h : DedupInv s) :
    DedupInv (dedupStep s b f) := by
  obtain ⟨h1, h2, h3⟩ := h
  cases b with
  | false => exact ⟨h1, h2, h3⟩
  | true =>
      cases hc : s.crash_detected_frame with
      | none =>
          refine ⟨by simp [dedupStep, hc], by simp [dedupStep, hc], ?_⟩
          simp [dedupStep, hc, h1 hc]
      | some cf =>
          by_cases hgap : 10 < f - cf
          · refine ⟨by simp [dedupStep, hc, hgap], by simp [dedupStep, hc, hgap], ?_⟩
            simp only [dedupStep, hc, hgap, if_true]
            simpa using Nat.add_le_add_right h3 1
          · have hpos : 1 ≤ s.total_unique_crashes := h2 (by simp [hc])
            refine ⟨by simp [dedupStep, hc, hgap], by simp [dedupStep, hc, hgap, hpos], ?_⟩
            simp only [dedupStep, hc, hgap, if_false]
            by_cases hlen : s.crash_frames.length < 4
            · simp only [hlen, if_true]
              simp only [List.length_append, List.length_singleton]
              omega
            · simp only [hlen, if_false]
              simpa using h3

/-- Helper: the invariant holds along any run of the deduplicator. -/
lemma dedupRunAux_inv (evs : List Bool) :
    ∀ (s : DedupState) (frame : Nat), DedupInv s → DedupInv (dedupRunAux s frame evs) := by
  induction evs with
  | nil => intro s frame h; exact h
  | cons b rest ih =>
      intro s frame h
      exact ih _ _ (dedupStep_inv s b frame h)

/-- C3 (amended).  The cap of 4 applies only to continuation appends
within an open incident; each new-incident opening appends its frame
unconditionally, so the session-global evidence-frame list is bounded by
the number of incidents opened plus 3 (and can therefore exceed 4 once a
second incident opens), for every evidence sequence. -/
theorem C3_evidence_list_bound (evs : List Bool) :
    (runDedup evs).crash_frames.length ≤ (runDedup evs).total_unique_crashes + 3 := by
  have h0 : DedupInv initDedup := by
    refine ⟨fun _ => rfl, fun hne => absurd rfl hne, ?_⟩
    simp [initDedup]
  exact (dedupRunAux_inv evs initDedup 1 h0).2.2

/-- C8.  Clearing the session state yields exactly the fresh initial state
(every history, map, set, buffer, counter and the crash-frame list), and
consequently processing any frame after a clear produces the same result
as processing it in a brand-new session, independent of the prior
session's data. -/
theorem C8_clear_restores_fresh_state :
    (∀ s : SessionState, clear_tracking_data s = initSession) ∧
    (∀ (sqrtQ : ℚ → ℚ) (s : SessionState) (dets : List Detection)
        (sig : FrameSignals) (frame : Nat) (fh : ℚ),
      processFrame sqrtQ (clear_tracking_data s) dets sig frame fh =
        processFrame sqrtQ initSession dets sig frame fh) :=
  ⟨fun _ => rfl, fun _ _ _ _ _ _ => rfl⟩

/-- C7.  `impact_detected` is the logical OR of the shake, blur and
brightness flags; each flag requires at least 3 accumulated samples of its
signal (counted after this frame's append); and on a fresh session the
first two frames always report `impact_detected = false`. -/
theorem C7_impact_flags_warmup :
    (∀ (s : ArtifactState) (sig : FrameSignals),
      (analyze_visual_artifacts s sig).2.impact_detected =
        (shakeFlagOf s sig || blurFlagOf s sig || brightFlagOf s sig)) ∧
    (∀ (s : ArtifactState) (sig : FrameSignals),
      shakeFlagOf s sig = true →
        3 ≤ (pushCap 5 s.motion_history sig.shake).length) ∧
    (∀ (s : ArtifactState) (sig : FrameSignals),
      blurFlagOf s sig = true →
        3 ≤ (pushCap 10 s.blur_history sig.blur).length) ∧
    (∀ (s : ArtifactState) (sig : FrameSignals),
      brightFlagOf s sig = true →
        3 ≤ (pushCap 5 s.brightness_history sig.brightness).length) ∧
    (∀ (sigs : List FrameSignals) (va : VisualArtifacts),
      va ∈ (runAnalyze initArtifact sigs).take 2 → va.impact_detected = false) := by
  refine ⟨fun s sig => rfl, ?_, ?_, ?_, ?_⟩
  · intro s sig h
    unfold shakeFlagOf at h
    split at h
    · unfold spikeExceeds at h
      rw [Bool.and_eq_true] at h
      exact of_decide_eq_true h.1
    · exact absurd h (by simp)
  · intro s sig h
    unfold blurFlagOf spikeExceeds at h
    rw [Bool.and_eq_true] at h
    exact of_decide_eq_true h.1
  · intro s sig h
    unfold brightFlagOf absExceeds at h
    rw [Bool.and_eq_true] at h
    exact of_decide_eq_true h.1
  · intro sigs va hmem
    match sigs with
    | [] => simp [runAnalyze] at hmem
    | [a] =>
        simp only [runAnalyze, List.take, List.mem_cons, List.not_mem_nil,
          or_false] at hmem
        subst hmem
        simp [analyze_visual_artifacts, shakeFlagOf, blurFlagOf, brightFlagOf,
          spikeExceeds, absExceeds, pushCap, initArtifact]
    | a :: b :: rest =>
        simp only [runAnalyze, List.take, List.mem_cons, List.not_mem_nil,
          or_false] at hmem
        rcases hmem with h | h <;> subst h <;>
          simp [analyze_visual_artifacts, shakeFlagOf, blurFlagOf, brightFlagOf,
            spikeExceeds, absExceeds, pushCap, initArtifact]

/-- C7 witness: the OR shape at a concrete state; each warm-up implication
applied at a concrete state whose flag fires; and the first output of a
concrete fresh session has `impact_detected = false`. -/
theorem C7_impact_flags_witness :
    ((analyze_visual_artifacts ⟨true, [], [0, 0], []⟩ ⟨100, 0, 0⟩).2.impact_detected =
      (shakeFlagOf ⟨true, [], [0, 0], []⟩ ⟨100, 0, 0⟩ ||
        blurFlagOf ⟨true, [], [0, 0], []⟩ ⟨100, 0, 0⟩ ||
        brightFlagOf ⟨true, [], [0, 0], []⟩ ⟨100, 0, 0⟩)) ∧
    3 ≤ (pushCap 5 ([0, 0] : List ℚ) (100 : ℚ)).length ∧
    3 ≤ (pushCap 10 ([0, 0] : List ℚ) (100 : ℚ)).length ∧
    3 ≤ (pushCap 5 ([0, 0] : List ℚ) (100 : ℚ)).length ∧
    (⟨0, 2, 3, false⟩ : VisualArtifacts).impact_detected = false :=
  ⟨C7_impact_flags_warmup.1 ⟨true, [], [0, 0], []⟩ ⟨100, 0, 0⟩,
   C7_impact_flags_warmup.2.1 ⟨true, [], [0, 0], []⟩ ⟨100, 0, 0⟩
     (by norm_num [shakeFlagOf, spikeExceeds, pushCap, lastN]),
   C7_impact_flags_warmup.2.2.1 ⟨false, [0, 0], [], []⟩ ⟨0, 100, 0⟩
     (by norm_num [blurFlagOf, spikeExceeds, pushCap, lastN]),
   C7_impact_flags_warmup.2.2.2.1 ⟨false, [], [], [0, 0]⟩ ⟨0, 0, 100⟩
     (by norm_num [brightFlagOf, absExceeds, pushCap, lastN]),
   C7_impact_flags_warmup.2.2.2.2 [⟨1, 2, 3⟩] ⟨0, 2, 3, false⟩ (by decide)⟩

/-- C4.  A currently detected vehicle id is carried by some emitted
`CrashEvidence` iff its total additive crash score for the frame is at
least 120, and every emitted `CrashEvidence` carrying a vehicle id has
severity (= score) at least 120. -/
theorem C4_threshold_iff (ts : TrackState) (dets : List Detection) (fh : ℚ)
    (va : VisualArtifacts) (i : Nat) (hi : i ∈ dets.map Detection.id) :
    ((∃ e ∈ detect_comprehensive_crashes ts dets fh va, e.vehicle_id = some i) ↔
      120 ≤ crashScoresOf ts dets fh va i) ∧
    (∀ e ∈ detect_comprehensive_crashes ts dets fh va,
      e.vehicle_id = some i → 120 ≤ e.severity) := by
  constructor
  · constructor
    · rintro ⟨e, he, hid⟩
      simp only [detect_comprehensive_crashes, List.mem_append] at he
      rcases he with hg | hf
      · have hnone := visualGlobalCrashes_vehicle_id _ _ e hg
        rw [hid] at hnone
        cases hnone
      · rcases List.mem_filterMap.mp hf with ⟨k, _, hek⟩
        by_cases hsc : 120 ≤ (crashMaps ts dets fh va).1 k
        · rw [if_pos hsc] at hek
          have he2 := Option.some.inj hek
          have : (some k : Option Nat) = some i := by rw [← he2] at hid; exact hid
          have hk : k = i := Option.some.inj this
          rw [← hk]
          exact hsc
        · rw [if_neg hsc] at hek
          cases hek
    · intro hsc
      refine ⟨⟨some i, (ts.vehicle_last_positions i).getD (0, 0),
        crashScoresOf ts dets fh va i, (crashMaps ts dets fh va).2 i⟩, ?_, rfl⟩
      simp only [detect_comprehensive_crashes, List.mem_append]
      right
      refine List.mem_filterMap.mpr ⟨i, (mem_pyKeys dets i).mpr hi, ?_⟩
      rw [if_pos (show 120 ≤ (crashMaps ts dets fh va).1 i from hsc)]
      rfl
  · intro e he hid
    simp only [detect_comprehensive_crashes, List.mem_append] at he
    rcases he with hg | hf
    · have hnone := visualGlobalCrashes_vehicle_id _ _ e hg
      rw [hid] at hnone
      cases hnone
    · rcases List.mem_filterMap.mp hf with ⟨k, _, hek⟩
      by_cases hsc : 120 ≤ (crashMaps ts dets fh va).1 k
      · rw [if_pos hsc] at hek
        have he2 := Option.some.inj hek
        rw [← he2]
        exact hsc
      · rw [if_neg hsc] at hek
        cases hek

/-- C4 witness: a single tracked vehicle scored 150 by a major camera
shake is emitted (score 150 ≥ 120). -/
theorem C4_threshold_witness :
    ∃ e ∈ detect_comprehensive_crashes initTrack
        [⟨1, (0, 0), ⟨0, 0, 10, 10⟩, 1, 2⟩] 720 ⟨250, 0, 0, true⟩,
      e.vehicle_id = some 1 :=
  (C4_threshold_iff initTrack [⟨1, (0, 0), ⟨0, 0, 10, 10⟩, 1, 2⟩] 720
      ⟨250, 0, 0, true⟩ 1 (by decide)).1.mpr
    (by norm_num [crashScoresOf, crashMaps, perDetectionLoop, singleScoring,
      pairLoop, applyAt, appendAt, visualPoints, visualEvid, growthBlock,
      velocityBlock, decelBlock, lastD, lastN, listMax, initTrack])

/-- C5.  With zero detections, `impact_detected` true and camera shake
above 100, the scorer emits exactly one vehicle-less `CrashEvidence` whose
severity equals the shake value (bypassing the 120 threshold); in the
concrete scenario of a single shake of 250 at frame 10 of a session with
no detections, exactly that event is produced and the deduplicator opens
exactly one incident at frame 10. -/
theorem C5_vehicleless_global_impact :
    (∀ (ts : TrackState) (fh : ℚ) (va : VisualArtifacts),
      va.impact_detected = true → 100 < va.camera_shake →
        (detect_comprehensive_crashes ts [] fh va).length = 1 ∧
        ∀ e ∈ detect_comprehensive_crashes ts [] fh va,
          e.vehicle_id = none ∧ e.severity = va.camera_shake) ∧
    (detect_comprehensive_crashes initTrack [] 720 ⟨250, 0, 0, true⟩ =
      [⟨none, (640, 360), 250, [Evid.majorShake 250]⟩]) ∧
    (runDedup (List.replicate 9 false ++
        [!(detect_comprehensive_crashes initTrack [] 720 ⟨250, 0, 0, true⟩).isEmpty]) =
      ⟨some 10, 1, [10]⟩) := by
  refine ⟨?_, by decide, by decide⟩
  intro ts fh va h1 h2
  by_cases h3 : 200 < va.camera_shake <;>
    simp [detect_comprehensive_crashes, visualGlobalCrashes, pyKeys, h1, h2, h3]

/-- C5 witness: shake 150 (above 100 but below the 120 threshold) still
yields exactly one vehicle-less event of severity 150. -/
theorem C5_vehicleless_witness :
    (detect_comprehensive_crashes initTrack [] 720 ⟨150, 0, 0, true⟩).length = 1 ∧
    ∀ e ∈ detect_comprehensive_crashes initTrack [] 720 ⟨150, 0, 0, true⟩,
      e.vehicle_id = none ∧ e.severity = (150 : ℚ) :=
  C5_vehicleless_global_impact.1 initTrack 720 ⟨150, 0, 0, true⟩ rfl (by decide)

/-- C10.  The deceleration rule awards points only when at least two
acceleration samples are recorded: on a shorter history it contributes
nothing, and for a lone detection the frame score with exactly one
acceleration sample equals the score with none, whatever the sample's
value. -/
theorem C10_decel_needs_two_samples :
    (∀ l : List ℚ, l.length < 2 → decelBlock l = (0, [])) ∧
    (∀ (ts : TrackState) (fh : ℚ) (va : VisualArtifacts) (d : Detection) (x : ℚ),
      crashScoresOf
          { ts with accelerations := setAt ts.accelerations d.id [x] }
          [d] fh va d.id =
        crashScoresOf
          { ts with accelerations := setAt ts.accelerations d.id [] }
          [d] fh va d.id) := by
  constructor
  · intro l h
    unfold decelBlock
    rw [if_neg (by omega)]
  · intro ts fh va d x
    simp [crashScoresOf, crashMaps, perDetectionLoop, pairLoop, singleScoring,
      applyAt, setAt, decelBlock]

/-- C10 witness: a single sample of −500 (well past both deceleration
thresholds) contributes nothing, at the rule and at the whole-frame score. -/
theorem C10_decel_witness :
    decelBlock [(-500 : ℚ)] = (0, []) ∧
    crashScoresOf
        { initTrack with accelerations := setAt initTrack.accelerations 1 [(-500 : ℚ)] }
        [⟨1, (0, 0), ⟨0, 0, 10, 10⟩, 1, 2⟩] 720 ⟨0, 0, 0, false⟩ 1 =
      crashScoresOf
        { initTrack with accelerations := setAt initTrack.accelerations 1 [] }
        [⟨1, (0, 0), ⟨0, 0, 10, 10⟩, 1, 2⟩] 720 ⟨0, 0, 0, false⟩ 1 :=
  ⟨C10_decel_needs_two_samples.1 [(-500 : ℚ)] (by decide),
   C10_decel_needs_two_samples.2 initTrack 720 ⟨0, 0, 0, false⟩
     ⟨1, (0, 0), ⟨0, 0, 10, 10⟩, 1, 2⟩ (-500)⟩

end CrashDetection
